import Mathlib

/-!
Verification development for the SEO task-tracking dashboard
(`src/app/actions.ts`): the task catalog data model, the completion
calculators, the Redis-backed read/seed/toggle operations and the
capped activity log, embedded shallowly in Lean.

JavaScript numbers are IEEE-754 binary64 doubles; they are modelled by
the exact rational values of doubles, with `flRound` rounding the exact
result of each arithmetic operation to the nearest representable double
(round half to even) as IEEE-754 prescribes, and `jsRound` modelling
`Math.round` (ECMA-262: nearest integral value, ties toward `+∞`,
computed on the exact value of its double argument).  The Redis store is
modelled by an explicit record of
the four optional documents, and each `redis.exists`/`get`/`set` call is
an explicit state-passing operation that consumes one tick of an
operation clock and may fail according to a failure behaviour
`Beh : Nat → Bool` (`true` at a tick makes that backend call throw).
`try`/`catch` blocks of the source become explicit matches on
`Except` results.  Impure timestamps (`Date.now()`,
`new Date().toISOString()`) are passed in as parameters.
-/

namespace SeoActions

/-- JavaScript `Math.round` applied to the exact rational value of a
double: ECMA-262 specifies the integral value nearest to the argument,
ties rounded toward `+∞`, i.e. `⌊q + 1/2⌋` (this is not `fl(q + 0.5)`:
the addition is not itself rounded). -/
def jsRound (q : ℚ) : ℤ := ⌊q + 1/2⌋

/-- Round a rational to the nearest integer, ties to even — the IEEE-754
default rounding direction, used for every arithmetic result. -/
def roundHalfEven (q : ℚ) : ℤ :=
  if q - ⌊q⌋ < 1/2 then ⌊q⌋
  else if 1/2 < q - ⌊q⌋ then ⌊q⌋ + 1
  else if ⌊q⌋ % 2 = 0 then ⌊q⌋ else ⌊q⌋ + 1

/-- The exact rational value of the IEEE-754 binary64 double nearest to
the nonnegative rational `q` (round to nearest, ties to even): `q` is
rounded to an integer multiple of the unit in the last place of its
binade, `2^(e-52)` for `2^e ≤ q < 2^(e+1)`, with the exponent clamped at
`-1022` so subnormal granularity `2^(-1074)` is honoured.  Magnitudes at
or beyond `2^1024` (overflow to infinity) do not arise in this
development, where every rounded value lies in `[0, 100]`. -/
def flRound (q : ℚ) : ℚ :=
  if q = 0 then 0
  else
    (roundHalfEven (q / 2 ^ (max (Int.log 2 q) (-1022) - 52)) : ℚ)
      * 2 ^ (max (Int.log 2 q) (-1022) - 52)

/-- A task record of the catalog (interface `Task`). -/
structure Task where
  id : Nat
  name : String
  completed : Bool
  responsible : String
  description : String
deriving DecidableEq

/-- The task catalog document (interface `TasksState`): a JavaScript
object mapping category keys to task arrays, embedded as an association
list in key-insertion order. -/
abbrev TasksState := List (String × List Task)

/-- Index-signature access `tasks[category]`; `none` models
JavaScript `undefined` for an absent key. -/
def lookupCat (tasks : TasksState) (category : String) : Option (List Task) :=
  (tasks.find? (fun p => p.1 == category)).map (fun p => p.2)

/-- Spread update `\x7b...tasks, [category]: l\x7d`: replaces the value at an
existing key in place, appends the key otherwise. -/
def setCat (tasks : TasksState) (category : String) (l : List Task) : TasksState :=
  if tasks.any (fun p => p.1 == category) then
    tasks.map (fun p => if p.1 == category then (p.1, l) else p)
  else tasks ++ [(category, l)]

/-- `calculateCompletion(tasks, category)` from `actions.ts`:
`0` for an absent category or an empty list, otherwise
`Math.round((completedTasks / totalTasks) * 100)` — the division and the
multiplication are each IEEE-754 double operations, so each result is
rounded to the nearest double (`flRound`) before `Math.round` applies. -/
def calculateCompletion (tasks : TasksState) (category : String) : ℤ :=
  match lookupCat tasks category with
  | none => 0
  | some cat =>
    let totalTasks := cat.length
    let completedTasks := (cat.filter (fun t => t.completed)).length
    if totalTasks > 0 then
      jsRound (flRound (flRound ((completedTasks : ℚ) / (totalTasks : ℚ)) * 100))
    else 0

/-- `calculateOverallCompletion(tasks)` from `actions.ts`:
`Object.values(tasks).flat()` followed by the same double-precision
ratio pipeline. -/
def calculateOverallCompletion (tasks : TasksState) : ℤ :=
  let allTasks := (tasks.map (fun p => p.2)).flatten
  let totalTasks := allTasks.length
  let completedTasks := (allTasks.filter (fun t => t.completed)).length
  if totalTasks > 0 then
    jsRound (flRound (flRound ((completedTasks : ℚ) / (totalTasks : ℚ)) * 100))
  else 0

/-- `Int.log 2` is characterised by the binade bounds. -/
theorem int_log2_eq (q : ℚ) (e : ℤ) (hq : 0 < q)
    (h1 : (2:ℚ) ^ e ≤ q) (h2 : q < (2:ℚ) ^ (e + 1)) : Int.log 2 q = e := by
  have hc : ((2:ℕ) : ℚ) = (2:ℚ) := by norm_num
  have ha : e ≤ Int.log 2 q :=
    (Int.zpow_le_iff_le_log one_lt_two hq).mp (by rw [hc]; exact h1)
  have hb : Int.log 2 q < e + 1 :=
    (Int.lt_zpow_iff_log_lt one_lt_two hq).mp (by rw [hc]; exact h2)
  omega

/-- Values at most 100 sit far below the top of the exponent range. -/
theorem int_log2_le_52 (q : ℚ) (hpos : 0 < q) (h : q ≤ 100) : Int.log 2 q ≤ 52 := by
  have h53 : q < ((2:ℕ) : ℚ) ^ (53:ℤ) := by
    have : ((2:ℕ) : ℚ) ^ (53:ℤ) = (2:ℚ) ^ (53:ℕ) := by
      norm_num
    rw [this]
    norm_num
    linarith
  have := (Int.lt_zpow_iff_log_lt one_lt_two hpos).mp h53
  omega

/-- `roundHalfEven` at a value within `[f, f + 1/2)` is `f`. -/
theorem roundHalfEven_eq_floor (q : ℚ) (f : ℤ)
    (h1 : (f:ℚ) ≤ q) (h2 : q < (f:ℚ) + 1/2) : roundHalfEven q = f := by
  have hf : ⌊q⌋ = f := Int.floor_eq_iff.mpr ⟨h1, by linarith⟩
  unfold roundHalfEven
  rw [hf, if_pos (by linarith)]

/-- `roundHalfEven` at a value within `(f + 1/2, f + 1)` is `f + 1`. -/
theorem roundHalfEven_eq_add_one (q : ℚ) (f : ℤ)
    (h1 : (f:ℚ) + 1/2 < q) (h2 : q < (f:ℚ) + 1) : roundHalfEven q = f + 1 := by
  have hf : ⌊q⌋ = f := Int.floor_eq_iff.mpr ⟨by linarith, h2⟩
  unfold roundHalfEven
  rw [hf, if_neg (by linarith), if_pos (by linarith)]

/-- `jsRound` evaluated through the floor characterisation. -/
theorem jsRound_eq_of (x : ℚ) (m : ℤ)
    (h1 : (m:ℚ) ≤ x + 1/2) (h2 : x + 1/2 < (m:ℚ) + 1) : jsRound x = m := by
  unfold jsRound
  exact Int.floor_eq_iff.mpr ⟨h1, h2⟩

theorem roundHalfEven_nonneg (q : ℚ) (hq : 0 ≤ q) : 0 ≤ roundHalfEven q := by
  have h0 : (0:ℤ) ≤ ⌊q⌋ := Int.floor_nonneg.mpr hq
  unfold roundHalfEven
  split_ifs <;> omega

/-- Rounding to nearest never crosses an integer bound from below. -/
theorem roundHalfEven_le (q : ℚ) (M : ℤ) (h : q ≤ (M:ℚ)) : roundHalfEven q ≤ M := by
  have hfM : ⌊q⌋ ≤ M := by
    have := Int.floor_le_floor h
    rwa [Int.floor_intCast] at this
  have hstrict : (1:ℚ)/2 ≤ q - ⌊q⌋ → ⌊q⌋ < M := by
    intro hge
    rcases lt_or_eq_of_le hfM with h' | h'
    · exact h'
    · exfalso
      have hcast : ((⌊q⌋ : ℤ) : ℚ) = (M:ℚ) := by exact_mod_cast h'
      linarith
  unfold roundHalfEven
  split_ifs with hlt hgt heven
  · exact hfM
  · have := hstrict (by linarith)
    omega
  · exact hfM
  · have := hstrict (by linarith)
    omega

/-- Evaluate `flRound` from the binade exponent and the rounded
significand. -/
theorem flRound_eq_of (q : ℚ) (e : ℤ) (n : ℤ) (hq : 0 < q)
    (h1 : (2:ℚ) ^ e ≤ q) (h2 : q < (2:ℚ) ^ (e + 1)) (he : -1022 ≤ e)
    (hn : roundHalfEven (q / 2 ^ (e - 52)) = n) :
    flRound q = (n:ℚ) * 2 ^ (e - 52) := by
  unfold flRound
  rw [if_neg hq.ne', int_log2_eq q e hq h1 h2, max_eq_left he, hn]

theorem flRound_nonneg (q : ℚ) (hq : 0 ≤ q) : 0 ≤ flRound q := by
  unfold flRound
  split_ifs with h0
  · exact le_refl 0
  · apply mul_nonneg
    · exact_mod_cast roundHalfEven_nonneg _ (div_nonneg hq (by positivity))
    · positivity

/-- `flRound` does not overtake a bound that is a multiple of the ulp. -/
theorem flRound_le_of_mul (q : ℚ) (m : ℤ) (hq : 0 < q)
    (h : q ≤ (m:ℚ) * 2 ^ (max (Int.log 2 q) (-1022) - 52)) :
    flRound q ≤ (m:ℚ) * 2 ^ (max (Int.log 2 q) (-1022) - 52) := by
  unfold flRound
  rw [if_neg hq.ne']
  have hd : (0:ℚ) < 2 ^ (max (Int.log 2 q) (-1022) - 52) := by positivity
  have hle := roundHalfEven_le (q / 2 ^ (max (Int.log 2 q) (-1022) - 52)) m
    ((div_le_iff₀ hd).mpr h)
  exact mul_le_mul_of_nonneg_right (by exact_mod_cast hle) hd.le

/-- `flRound` never overtakes an integer bound (integers of this size are
exact multiples of every ulp in range). -/
theorem flRound_le_intCast (q : ℚ) (C : ℤ) (hpos : 0 < q) (hC : q ≤ (C:ℚ))
    (hlog : Int.log 2 q ≤ 52) : flRound q ≤ (C:ℚ) := by
  have he : max (Int.log 2 q) (-1022) ≤ 52 := max_le hlog (by norm_num)
  have hkey : ((C * 2 ^ ((52 - max (Int.log 2 q) (-1022)).toNat) : ℤ) : ℚ)
      * 2 ^ (max (Int.log 2 q) (-1022) - 52) = (C:ℚ) := by
    push_cast
    rw [← zpow_natCast (2:ℚ), Int.toNat_of_nonneg (by omega), mul_assoc,
      ← zpow_add₀ (two_ne_zero)]
    rw [show 52 - max (Int.log 2 q) (-1022) + (max (Int.log 2 q) (-1022) - 52)
      = 0 from by ring]
    rw [zpow_zero, mul_one]
  have h2 := flRound_le_of_mul q (C * 2 ^ ((52 - max (Int.log 2 q) (-1022)).toNat))
    hpos (by rw [hkey]; exact hC)
  rwa [hkey] at h2

/-- The double pipeline keeps the rounded percentage inside `[0, 100]`. -/
theorem jsRound_pipeline_bounds (K N : ℕ) (hK : K ≤ N) (hN : 0 < N) :
    0 ≤ jsRound (flRound (flRound ((K : ℚ) / (N : ℚ)) * 100))
  ∧ jsRound (flRound (flRound ((K : ℚ) / (N : ℚ)) * 100)) ≤ 100 := by
  have hNQ : (0:ℚ) < (N:ℚ) := by exact_mod_cast hN
  have hx0 : (0:ℚ) ≤ (K:ℚ) / (N:ℚ) := by positivity
  have hx1 : (K:ℚ) / (N:ℚ) ≤ 1 := by
    rw [div_le_one hNQ]
    exact_mod_cast hK
  have hy0 : (0:ℚ) ≤ flRound ((K:ℚ) / (N:ℚ)) := flRound_nonneg _ hx0
  have hy1 : flRound ((K:ℚ) / (N:ℚ)) ≤ 1 := by
    rcases eq_or_lt_of_le hx0 with h | hpos
    · rw [← h]
      norm_num [flRound]
    · have hlog : Int.log 2 ((K:ℚ) / (N:ℚ)) ≤ 52 :=
        int_log2_le_52 _ hpos (by linarith)
      have := flRound_le_intCast _ 1 hpos (by exact_mod_cast hx1) hlog
      exact_mod_cast this
  have hy100 : flRound ((K:ℚ) / (N:ℚ)) * 100 ≤ 100 := by linarith
  have hy100n : (0:ℚ) ≤ flRound ((K:ℚ) / (N:ℚ)) * 100 := by linarith
  have hz0 : (0:ℚ) ≤ flRound (flRound ((K:ℚ) / (N:ℚ)) * 100) :=
    flRound_nonneg _ hy100n
  have hz1 : flRound (flRound ((K:ℚ) / (N:ℚ)) * 100) ≤ 100 := by
    rcases eq_or_lt_of_le hy100n with h | hpos
    · rw [← h]
      norm_num [flRound]
    · have hlog := int_log2_le_52 _ hpos hy100
      have := flRound_le_intCast _ 100 hpos (by exact_mod_cast hy100) hlog
      exact_mod_cast this
  constructor
  · unfold jsRound
    exact Int.floor_nonneg.mpr (by linarith)
  · unfold jsRound
    have hle : flRound (flRound ((K:ℚ) / (N:ℚ)) * 100) + 1/2 ≤ (100:ℚ) + 1/2 := by
      linarith
    have hmono := Int.floor_le_floor hle
    have h100 : ⌊(100:ℚ) + 1/2⌋ = 100 :=
      Int.floor_eq_iff.mpr ⟨by norm_num, by norm_num⟩
    omega

/-- The exact double pipeline at `K = 3`, `N = 8`: all steps are exact
(`0.375` and `37.5` are representable) and the tie rounds half-up. -/
theorem calcPipe_3_8 :
    jsRound (flRound (flRound (((3:ℕ) : ℚ) / ((8:ℕ) : ℚ)) * 100)) = 38 := by
  have hx : (((3:ℕ) : ℚ) / ((8:ℕ) : ℚ)) = 3/8 := by norm_num
  have h1 : flRound (3/8 : ℚ) = ((6755399441055744 : ℤ) : ℚ) * 2 ^ ((-2:ℤ) - 52) := by
    apply flRound_eq_of _ (-2) _ (by norm_num) (by norm_num) (by norm_num) (by norm_num)
    exact roundHalfEven_eq_floor _ _ (by norm_num) (by norm_num)
  have h2 : flRound (((6755399441055744 : ℤ) : ℚ) * 2 ^ ((-2:ℤ) - 52) * 100)
      = ((5277655813324800 : ℤ) : ℚ) * 2 ^ ((5:ℤ) - 52) := by
    apply flRound_eq_of _ 5 _ (by norm_num) (by norm_num) (by norm_num) (by norm_num)
    exact roundHalfEven_eq_floor _ _ (by norm_num) (by norm_num)
  rw [hx, h1, h2]
  exact jsRound_eq_of _ 38 (by norm_num) (by norm_num)

/-- The double pipeline at `K = 1`, `N = 3`: rounds to 33. -/
theorem calcPipe_1_3 :
    jsRound (flRound (flRound (((1:ℕ) : ℚ) / ((3:ℕ) : ℚ)) * 100)) = 33 := by
  have hx : (((1:ℕ) : ℚ) / ((3:ℕ) : ℚ)) = 1/3 := by norm_num
  have h1 : flRound (1/3 : ℚ) = ((6004799503160661 : ℤ) : ℚ) * 2 ^ ((-2:ℤ) - 52) := by
    apply flRound_eq_of _ (-2) _ (by norm_num) (by norm_num) (by norm_num) (by norm_num)
    exact roundHalfEven_eq_floor _ _ (by norm_num) (by norm_num)
  have h2 : flRound (((6004799503160661 : ℤ) : ℚ) * 2 ^ ((-2:ℤ) - 52) * 100)
      = ((4691249611844266 : ℤ) : ℚ) * 2 ^ ((5:ℤ) - 52) := by
    apply flRound_eq_of _ 5 _ (by norm_num) (by norm_num) (by norm_num) (by norm_num)
    exact roundHalfEven_eq_floor _ _ (by norm_num) (by norm_num)
  rw [hx, h1, h2]
  exact jsRound_eq_of _ 33 (by norm_num) (by norm_num)

/-- The double pipeline at `K = 2`, `N = 3`: rounds to 67. -/
theorem calcPipe_2_3 :
    jsRound (flRound (flRound (((2:ℕ) : ℚ) / ((3:ℕ) : ℚ)) * 100)) = 67 := by
  have hx : (((2:ℕ) : ℚ) / ((3:ℕ) : ℚ)) = 2/3 := by norm_num
  have h1 : flRound (2/3 : ℚ) = ((6004799503160661 : ℤ) : ℚ) * 2 ^ ((-1:ℤ) - 52) := by
    apply flRound_eq_of _ (-1) _ (by norm_num) (by norm_num) (by norm_num) (by norm_num)
    exact roundHalfEven_eq_floor _ _ (by norm_num) (by norm_num)
  have h2 : flRound (((6004799503160661 : ℤ) : ℚ) * 2 ^ ((-1:ℤ) - 52) * 100)
      = ((4691249611844266 : ℤ) : ℚ) * 2 ^ ((6:ℤ) - 52) := by
    apply flRound_eq_of _ 6 _ (by norm_num) (by norm_num) (by norm_num) (by norm_num)
    exact roundHalfEven_eq_floor _ _ (by norm_num) (by norm_num)
  rw [hx, h1, h2]
  exact jsRound_eq_of _ 67 (by norm_num) (by norm_num)

/-- The double pipeline at `K = 2`, `N = 10`: `fl(1/5)` rounds up in its
last place, yet the product rounds back to exactly 20. -/
theorem calcPipe_2_10 :
    jsRound (flRound (flRound (((2:ℕ) : ℚ) / ((10:ℕ) : ℚ)) * 100)) = 20 := by
  have hx : (((2:ℕ) : ℚ) / ((10:ℕ) : ℚ)) = 1/5 := by norm_num
  have h1 : flRound (1/5 : ℚ) = ((7205759403792794 : ℤ) : ℚ) * 2 ^ ((-3:ℤ) - 52) := by
    apply flRound_eq_of _ (-3) _ (by norm_num) (by norm_num) (by norm_num) (by norm_num)
    have hup := roundHalfEven_eq_add_one ((1/5 : ℚ) / 2 ^ ((-3:ℤ) - 52))
      7205759403792793 (by norm_num) (by norm_num)
    rw [hup]
    decide
  have h2 : flRound (((7205759403792794 : ℤ) : ℚ) * 2 ^ ((-3:ℤ) - 52) * 100)
      = ((5629499534213120 : ℤ) : ℚ) * 2 ^ ((4:ℤ) - 52) := by
    apply flRound_eq_of _ 4 _ (by norm_num) (by norm_num) (by norm_num) (by norm_num)
    exact roundHalfEven_eq_floor _ _ (by norm_num) (by norm_num)
  rw [hx, h1, h2]
  exact jsRound_eq_of _ 20 (by norm_num) (by norm_num)

/-- The double pipeline at `K = 23`, `N = 40`: `fl(23/40)` falls below
`0.575`, the product `fl(fl(23/40)·100)` lands just below `57.5`, and
`Math.round` returns 57 — not the round-half-up value 58. -/
theorem calcPipe_23_40 :
    jsRound (flRound (flRound (((23:ℕ) : ℚ) / ((40:ℕ) : ℚ)) * 100)) = 57 := by
  have hx : (((23:ℕ) : ℚ) / ((40:ℕ) : ℚ)) = 23/40 := by norm_num
  have h1 : flRound (23/40 : ℚ) = ((5179139571476070 : ℤ) : ℚ) * 2 ^ ((-1:ℤ) - 52) := by
    apply flRound_eq_of _ (-1) _ (by norm_num) (by norm_num) (by norm_num) (by norm_num)
    exact roundHalfEven_eq_floor _ _ (by norm_num) (by norm_num)
  have h2 : flRound (((5179139571476070 : ℤ) : ℚ) * 2 ^ ((-1:ℤ) - 52) * 100)
      = ((8092405580431359 : ℤ) : ℚ) * 2 ^ ((5:ℤ) - 52) := by
    apply flRound_eq_of _ 5 _ (by norm_num) (by norm_num) (by norm_num) (by norm_num)
    exact roundHalfEven_eq_floor _ _ (by norm_num) (by norm_num)
  rw [hx, h1, h2]
  exact jsRound_eq_of _ 57 (by norm_num) (by norm_num)

/-- C1 (amended): `calculateCompletion` returns 0 when the category is
absent from the document or its task list is empty; otherwise, for a
category with `N > 0` tasks of which `K` are completed, it returns
`Math.round` of the IEEE-754 double computation `(K/N) * 100` — two
double roundings before the final integer rounding — and the result is
always an integer in `[0, 100]`.  The exact `round(100*K/N)` of the
original claim fails at e.g. `K = 23`, `N = 40` (program: 57,
round-half-up: 58). -/
theorem C1_calculateCompletion_double_rounding (tasks : TasksState) (category : String) :
    (lookupCat tasks category = none → calculateCompletion tasks category = 0)
  ∧ (lookupCat tasks category = some [] → calculateCompletion tasks category = 0)
  ∧ ∀ cat, lookupCat tasks category = some cat → cat ≠ [] →
      calculateCompletion tasks category
        = jsRound (flRound (flRound
            (((cat.filter (fun t => t.completed)).length : ℚ) / (cat.length : ℚ)) * 100))
      ∧ 0 ≤ calculateCompletion tasks category
      ∧ calculateCompletion tasks category ≤ 100 := by
  refine ⟨?_, ?_, ?_⟩
  · intro h
    unfold calculateCompletion
    rw [h]
  · intro h
    unfold calculateCompletion
    rw [h]
    rfl
  · intro cat hcat hne
    have hN : 0 < cat.length := List.length_pos.mpr hne
    have hcalc : calculateCompletion tasks category
        = jsRound (flRound (flRound
            (((cat.filter (fun t => t.completed)).length : ℚ) / (cat.length : ℚ)) * 100)) := by
      unfold calculateCompletion
      rw [hcat]
      show (if cat.length > 0 then jsRound (flRound (flRound
          (((cat.filter (fun t => t.completed)).length : ℚ) / (cat.length : ℚ)) * 100))
        else 0) = _
      rw [if_pos hN]
    have hb := jsRound_pipeline_bounds (cat.filter (fun t => t.completed)).length
      cat.length (List.length_filter_le _ _) hN
    exact ⟨hcalc, by rw [hcalc]; exact hb.1, by rw [hcalc]; exact hb.2⟩

/-- Forty tasks of which the first 23 are completed. -/
def exCat5740 : List Task :=
  (List.range 40).map (fun i => ⟨i + 1, "t", decide (i < 23), "r", "d"⟩)

/-- C1 counterexample: with `K = 23` completed of `N = 40` tasks the
program returns 57, while the claimed exact `round(100*23/40)` — the
round-half-up integer `(200*23+40)/(2*40)` — is 58. -/
theorem C1_counterexample :
    calculateCompletion [("a", exCat5740)] "a" = 57
  ∧ calculateCompletion [("a", exCat5740)] "a"
      ≠ (((200 * 23 + 40) / (2 * 40) : ℕ) : ℤ) := by
  have h : calculateCompletion [("a", exCat5740)] "a" = 57 := by
    unfold calculateCompletion
    show (if exCat5740.length > 0 then jsRound (flRound (flRound
        (((exCat5740.filter (fun t => t.completed)).length : ℚ)
          / (exCat5740.length : ℚ)) * 100))
      else 0) = 57
    rw [if_pos (by decide),
      show (exCat5740.filter (fun t => t.completed)).length = 23 from rfl,
      show exCat5740.length = 40 from rfl]
    exact calcPipe_23_40
  refine ⟨h, ?_⟩
  rw [h]
  decide

/-- An eight-task category with three completed tasks. -/
def exCat38 : List Task :=
  [⟨1, "t1", true, "r", "d"⟩, ⟨2, "t2", true, "r", "d"⟩, ⟨3, "t3", true, "r", "d"⟩,
   ⟨4, "t4", false, "r", "d"⟩, ⟨5, "t5", false, "r", "d"⟩, ⟨6, "t6", false, "r", "d"⟩,
   ⟨7, "t7", false, "r", "d"⟩, ⟨8, "t8", false, "r", "d"⟩]

/-- A three-task category with one completed task. -/
def exCat33 : List Task := [⟨1, "t1", true, "r", "d"⟩, ⟨2, "t2", false, "r", "d"⟩,
  ⟨3, "t3", false, "r", "d"⟩]

/-- A three-task category with two completed tasks. -/
def exCat67 : List Task := [⟨1, "t1", true, "r", "d"⟩, ⟨2, "t2", true, "r", "d"⟩,
  ⟨3, "t3", false, "r", "d"⟩]

theorem C1_witness :
    calculateCompletion [("a", exCat38)] "a" = 38
  ∧ calculateCompletion [("a", exCat33)] "a" = 33
  ∧ calculateCompletion [("a", exCat67)] "a" = 67
  ∧ calculateCompletion [("a", exCat38)] "zzz" = 0
  ∧ calculateCompletion [("a", exCat38), ("b", [])] "b" = 0 := by
  refine ⟨?_, ?_, ?_, ?_, ?_⟩
  · rw [((C1_calculateCompletion_double_rounding [("a", exCat38)] "a").2.2 exCat38
      (by decide) (by decide)).1,
      show (exCat38.filter (fun t => t.completed)).length = 3 from rfl,
      show exCat38.length = 8 from rfl]
    exact calcPipe_3_8
  · rw [((C1_calculateCompletion_double_rounding [("a", exCat33)] "a").2.2 exCat33
      (by decide) (by decide)).1,
      show (exCat33.filter (fun t => t.completed)).length = 1 from rfl,
      show exCat33.length = 3 from rfl]
    exact calcPipe_1_3
  · rw [((C1_calculateCompletion_double_rounding [("a", exCat67)] "a").2.2 exCat67
      (by decide) (by decide)).1,
      show (exCat67.filter (fun t => t.completed)).length = 2 from rfl,
      show exCat67.length = 3 from rfl]
    exact calcPipe_2_3
  · exact (C1_calculateCompletion_double_rounding [("a", exCat38)] "zzz").1 (by decide)
  · exact (C1_calculateCompletion_double_rounding [("a", exCat38), ("b", [])] "b").2.1
      (by decide)

/-- C2 (amended): `calculateOverallCompletion` flattens every category's
task list into one collection (so categories are weighted by their task
count, not averaged per category) and returns `Math.round` of the
IEEE-754 double computation `(K/N) * 100` over the flattened totals,
always an integer in `[0, 100]` (0 when the document has no tasks).  The
exact `round(100*K/N)` of the original claim fails at e.g. 23 completed
of 40 total (program: 57, round-half-up: 58). -/
theorem C2_calculateOverallCompletion_flattens (tasks : TasksState) :
    ((tasks.map (fun p => p.2)).flatten = [] → calculateOverallCompletion tasks = 0)
  ∧ ∀ allTasks, (tasks.map (fun p => p.2)).flatten = allTasks → allTasks ≠ [] →
      calculateOverallCompletion tasks
        = jsRound (flRound (flRound
            (((allTasks.filter (fun t => t.completed)).length : ℚ)
              / (allTasks.length : ℚ)) * 100))
      ∧ 0 ≤ calculateOverallCompletion tasks
      ∧ calculateOverallCompletion tasks ≤ 100 := by
  refine ⟨?_, ?_⟩
  · intro h
    unfold calculateOverallCompletion
    rw [h]
    rfl
  · intro allTasks hall hne
    have hN : 0 < allTasks.length := List.length_pos.mpr hne
    have hcalc : calculateOverallCompletion tasks
        = jsRound (flRound (flRound
            (((allTasks.filter (fun t => t.completed)).length : ℚ)
              / (allTasks.length : ℚ)) * 100)) := by
      unfold calculateOverallCompletion
      rw [hall]
      show (if allTasks.length > 0 then jsRound (flRound (flRound
          (((allTasks.filter (fun t => t.completed)).length : ℚ)
            / (allTasks.length : ℚ)) * 100))
        else 0) = _
      rw [if_pos hN]
    have hb := jsRound_pipeline_bounds (allTasks.filter (fun t => t.completed)).length
      allTasks.length (List.length_filter_le _ _) hN
    exact ⟨hcalc, by rw [hcalc]; exact hb.1, by rw [hcalc]; exact hb.2⟩

/-- Twenty tasks of which the first 11 are completed. -/
def exCatA : List Task :=
  (List.range 20).map (fun i => ⟨i + 1, "a", decide (i < 11), "r", "d"⟩)

/-- Twenty tasks of which the first 12 are completed. -/
def exCatB : List Task :=
  (List.range 20).map (fun i => ⟨i + 1, "b", decide (i < 12), "r", "d"⟩)

/-- C2 counterexample: a document flattening to 40 tasks with 23
completed makes the program return 57, while the claimed exact
`round(100*23/40)` is 58. -/
theorem C2_counterexample :
    calculateOverallCompletion [("A", exCatA), ("B", exCatB)] = 57
  ∧ calculateOverallCompletion [("A", exCatA), ("B", exCatB)]
      ≠ (((200 * 23 + 40) / (2 * 40) : ℕ) : ℤ) := by
  have h : calculateOverallCompletion [("A", exCatA), ("B", exCatB)] = 57 := by
    unfold calculateOverallCompletion
    show (if (([("A", exCatA), ("B", exCatB)] : TasksState).map
          (fun p => p.2)).flatten.length > 0 then
        jsRound (flRound (flRound
          ((((([("A", exCatA), ("B", exCatB)] : TasksState).map
              (fun p => p.2)).flatten.filter (fun t => t.completed)).length : ℚ)
            / ((([("A", exCatA), ("B", exCatB)] : TasksState).map
              (fun p => p.2)).flatten.length : ℚ)) * 100))
      else 0) = 57
    rw [if_pos (by decide),
      show ((([("A", exCatA), ("B", exCatB)] : TasksState).map
        (fun p => p.2)).flatten.filter (fun t => t.completed)).length = 23 from rfl,
      show (([("A", exCatA), ("B", exCatB)] : TasksState).map
        (fun p => p.2)).flatten.length = 40 from rfl]
    exact calcPipe_23_40
  refine ⟨h, ?_⟩
  rw [h]
  decide

/-- A two-category document: 8 tasks none completed, plus 2 tasks both
completed; task-count weighting gives 20, not the per-category average 50. -/
def exDocAB : TasksState :=
  [("A", [⟨1, "a1", false, "r", "d"⟩, ⟨2, "a2", false, "r", "d"⟩, ⟨3, "a3", false, "r", "d"⟩,
          ⟨4, "a4", false, "r", "d"⟩, ⟨5, "a5", false, "r", "d"⟩, ⟨6, "a6", false, "r", "d"⟩,
          ⟨7, "a7", false, "r", "d"⟩, ⟨8, "a8", false, "r", "d"⟩]),
   ("B", [⟨1, "b1", true, "r", "d"⟩, ⟨2, "b2", true, "r", "d"⟩])]

theorem C2_witness :
    calculateOverallCompletion exDocAB = 20
  ∧ calculateOverallCompletion exDocAB ≠ 50
  ∧ calculateOverallCompletion [("A", []), ("B", [])] = 0 := by
  have h20 : calculateOverallCompletion exDocAB = 20 := by
    rw [((C2_calculateOverallCompletion_flattens exDocAB).2
        ((exDocAB.map (fun p => p.2)).flatten) rfl (by decide)).1,
      show ((exDocAB.map (fun p => p.2)).flatten.filter
        (fun t => t.completed)).length = 2 from rfl,
      show (exDocAB.map (fun p => p.2)).flatten.length = 10 from rfl]
    exact calcPipe_2_10
  refine ⟨h20, by rw [h20]; decide, ?_⟩
  exact (C2_calculateOverallCompletion_flattens [("A", []), ("B", [])]).1 (by decide)

/-- An activity-log entry as written by `addActivityLog`
(interface `ActivityLogEntry`). -/
structure ActivityLogEntry where
  type : String
  message : String
  timestamp : Nat
deriving DecidableEq

/-- The differently-shaped log entry seeded by `initializeRedisData`
(`\x7bid, timestamp: ISO string, action, description, user\x7d`). -/
structure SeedLogEntry where
  id : Nat
  timestamp : String
  action : String
  description : String
  user : String
deriving DecidableEq

/-- A value stored in the activity-log array: either the seeded
`SYSTEM_INIT` record or a toggle-produced entry (the stored JSON array is
heterogeneous; `getActivityLog` merely casts it). -/
inductive LogItem
  | seeded (e : SeedLogEntry)
  | entry (e : ActivityLogEntry)
deriving DecidableEq

/-- The SEO-score document seeded by `initializeRedisData`. -/
structure ScoreSeed where
  overall : Nat
  technical : Nat
  content : Nat
  backlinks : Nat
  performance : Nat
  lastUpdated : String
deriving DecidableEq

/-- One integration-status record (`\x7bconnected, lastSync\x7d`,
`lastSync: null` modelled as `none`). -/
structure ConnInfo where
  connected : Bool
  lastSync : Option String
deriving DecidableEq

/-- The four Redis keys used by `actions.ts`. -/
inductive RKey
  | tasks
  | activityLog
  | seoScore
  | integrations
deriving DecidableEq

/-- The remote key-value store: one optional JSON document per key
(`none` = key absent). -/
structure Store where
  tasks : Option TasksState
  activityLog : Option (List LogItem)
  seoScore : Option ScoreSeed
  integrations : Option (List (String × ConnInfo))
deriving DecidableEq

/-- The world threaded through every operation: the store plus an
operation clock counting backend calls (used by failure behaviours). -/
structure World where
  store : Store
  clock : Nat
deriving DecidableEq

/-- A failure behaviour of the storage backend: `beh n = true` makes the
`n`-th backend call (counted by `World.clock`) throw. -/
abbrev Beh := Nat → Bool

/-- The behaviour of a healthy backend: no call ever fails. -/
def behNone : Beh := fun _ => false

/-- Advance the operation clock by one backend call. -/
def tick (w : World) : World := { w with clock := w.clock + 1 }

/-- `redis.exists(key)`: reports whether the key holds a document. -/
def redisExists (beh : Beh) (k : RKey) (w : World) : Except String Bool × World :=
  if beh w.clock then (Except.error "redis error", tick w)
  else
    (Except.ok (match k with
      | RKey.tasks => w.store.tasks.isSome
      | RKey.activityLog => w.store.activityLog.isSome
      | RKey.seoScore => w.store.seoScore.isSome
      | RKey.integrations => w.store.integrations.isSome), tick w)

/-- `redis.get(TASKS_KEY)` (typed at the catalog document). -/
def redisGetTasks (beh : Beh) (w : World) : Except String (Option TasksState) × World :=
  if beh w.clock then (Except.error "redis error", tick w)
  else (Except.ok w.store.tasks, tick w)

/-- `redis.set(TASKS_KEY, v)`. -/
def redisSetTasks (beh : Beh) (v : TasksState) (w : World) : Except String Unit × World :=
  if beh w.clock then (Except.error "redis error", tick w)
  else (Except.ok (), tick { w with store := { w.store with tasks := some v } })

/-- `redis.get(ACTIVITY_LOG_KEY)` (typed at the stored log array). -/
def redisGetLog (beh : Beh) (w : World) : Except String (Option (List LogItem)) × World :=
  if beh w.clock then (Except.error "redis error", tick w)
  else (Except.ok w.store.activityLog, tick w)

/-- `redis.set(ACTIVITY_LOG_KEY, v)`. -/
def redisSetLog (beh : Beh) (v : List LogItem) (w : World) : Except String Unit × World :=
  if beh w.clock then (Except.error "redis error", tick w)
  else (Except.ok (), tick { w with store := { w.store with activityLog := some v } })

/-- `redis.set(SEO_SCORE_KEY, v)`. -/
def redisSetScore (beh : Beh) (v : ScoreSeed) (w : World) : Except String Unit × World :=
  if beh w.clock then (Except.error "redis error", tick w)
  else (Except.ok (), tick { w with store := { w.store with seoScore := some v } })

/-- `redis.set(INTEGRATION_STATUS_KEY, v)`. -/
def redisSetIntegrations (beh : Beh) (v : List (String × ConnInfo)) (w : World) :
    Except String Unit × World :=
  if beh w.clock then (Except.error "redis error", tick w)
  else (Except.ok (), tick { w with store := { w.store with integrations := some v } })

/-- The static default task catalog (`getDefaultTasks()` in `actions.ts`),
transcribed verbatim; apostrophes appear as `\x27` escapes. -/
def getDefaultTasks : TasksState := [
  ("indiancashback", [
    ⟨1, "Optimize cashback category pages", false, "SEO Analyst", "Enhance category pages (Fashion, Home, Electronics, etc.) with unique descriptions, relevant keywords, and proper H1-H6 structure. Improves topical relevance and user engagement for IndianCashback\x27s core offerings."⟩,
    ⟨2, "Implement merchant-specific schema markup", false, "Frontend Developer", "Add structured data for cashback offers, store ratings, and merchant information. Enables rich snippets in search results showing cashback percentages and merchant ratings to improve CTR."⟩,
    ⟨3, "Create merchant comparison content", false, "Content Writer", "Develop in-depth comparison content between popular merchants (e.g., Amazon vs Flipkart cashback). Target high-value keywords that shoppers use when comparing cashback options."⟩,
    ⟨4, "Optimize site for \"cashback + [store name]\" keywords", false, "SEO Analyst", "Audit and optimize individual store pages for high-volume \"cashback + [store name]\" searches (e.g., \"Amazon cashback\", \"Flipkart cashback\"). Focus on title tags, meta descriptions, and content."⟩,
    ⟨5, "Create seasonal cashback guides", false, "Content Writer", "Develop content for seasonal shopping events (Diwali, Republic Day, End of Season) showcasing highest cashback offers. Target seasonal shopping keywords to capture time-specific traffic."⟩,
    ⟨6, "Implement FAQ schema for cashback questions", false, "Frontend Developer", "Add FAQ schema markup to answer common cashback questions. Improves chances of appearing in Google\x27s featured snippets and \"People also ask\" sections for cashback-related queries."⟩,
    ⟨7, "Create mobile app promotion structure", false, "Frontend Developer", "Optimize app download pages with structured data and app indexing. Improves visibility of IndianCashback\x27s mobile app in search results and enables app-specific search features."⟩,
    ⟨8, "Implement user review schema", false, "Frontend Developer", "Add schema markup for user reviews and ratings of IndianCashback service. Generates star ratings in search results to improve credibility and click-through rates."⟩
  ]),
  ("india_specific", [
    ⟨1, "Optimize for India-specific search engines", false, "SEO Analyst", "While Google dominates the Indian market, ensure visibility on other platforms like Yahoo India. Different search engines may prioritize different ranking factors."⟩,
    ⟨2, "Implement hreflang for regional targeting", false, "Frontend Developer", "Add hreflang tags to specify that content is targeted for Indian users (hi-IN, en-IN). Helps search engines serve the appropriate version of the site to users based on language and location."⟩,
    ⟨3, "Create Hindi language content", false, "Content Writer", "Develop key pages in Hindi to reach broader Indian audience. Focus on popular shopping categories and cashback explanation content to improve visibility in Hindi-language searches."⟩,
    ⟨4, "Register with Webmaster tools for Indian search engines", false, "SEO Analyst", "Submit sitemaps to Google India and other relevant local search platforms. Ensures proper indexing and monitoring of site performance in Indian search results."⟩,
    ⟨5, "Target India-specific shopping festivals", false, "Content Writer", "Create SEO content targeting major Indian shopping events like Great Indian Festival, Big Billion Days, and Diwali sales. Optimize for festival-specific shopping keyword combinations."⟩,
    ⟨6, "Optimize for mobile search", false, "Frontend Developer", "India is primarily a mobile-first market with over 700 million smartphone users. Ensure site is fully responsive, loads quickly on slower connections, and passes mobile-friendly tests."⟩,
    ⟨7, "Build location-specific landing pages", false, "Content Writer", "Create optimized pages for major Indian cities (Delhi, Mumbai, Bangalore, etc.) with locally relevant cashback offers. Target \"[city] + cashback\" keywords to capture location-specific searches."⟩,
    ⟨8, "Optimize for voice search in Indian English", false, "SEO Analyst", "Implement natural language patterns common in Indian English for voice search queries. Target long-tail conversational queries like \"What is the best cashback for Flipkart in Delhi?\""⟩
  ]),
  ("indiancashback_backlinks", [
    ⟨1, "Analyze Indian cashback competitor backlinks", false, "SEO Analyst", "Conduct thorough analysis of backlink profiles for competing cashback sites like CashKaro, GrabOn, and PaisaWapas. Identify high-quality backlink sources to target for IndianCashback."⟩,
    ⟨2, "Create partner outreach program", false, "Marketing", "Develop outreach strategy for Indian finance bloggers, deal sites, and shopping communities. Create partnership opportunities with mutual benefits to secure relevant backlinks."⟩,
    ⟨3, "Build relationships with Indian e-commerce reviewers", false, "Marketing", "Connect with bloggers and YouTubers who review Indian e-commerce platforms. Provide exclusive cashback offers or affiliate partnerships in exchange for mentions and links."⟩,
    ⟨4, "Develop shareable cashback infographics", false, "Content Writer", "Create data-driven infographics about Indian online shopping trends, cashback savings statistics, or festival shopping guides that will attract backlinks from news sites and blogs."⟩,
    ⟨5, "Guest post on Indian personal finance sites", false, "Content Writer", "Identify top Indian personal finance blogs and pitch valuable content about saving money through cashback while shopping online. Focus on educational content with natural links to IndianCashback."⟩,
    ⟨6, "Create a merchant-specific resource center", false, "Content Writer", "Develop comprehensive guides for maximizing cashback from major Indian retailers. Create link-worthy resources that shopping blogs and deal sites will reference and link to."⟩,
    ⟨7, "Implement HARO strategy for Indian media", false, "SEO Analyst", "Utilize Help A Reporter Out (HARO) to connect with Indian journalists writing about e-commerce, online shopping, or personal finance. Provide expert quotes on cashback topics to earn media mentions and links."⟩,
    ⟨8, "Create broken link building campaign", false, "SEO Analyst", "Identify broken links on Indian shopping, finance, and deal websites that point to defunct cashback resources. Create replacement content and reach out to webmasters with your solution."⟩
  ]),
  ("indiancashback_technical", [
    ⟨1, "Optimize merchant page URL structure", false, "Frontend Developer", "Implement SEO-friendly URLs for merchant pages (e.g., indiancashback.com/amazon instead of indiancashback.com/store?id=12345). Clean, keyword-rich URLs improve both rankings and user trust."⟩,
    ⟨2, "Implement cashback offer pagination", false, "Frontend Developer", "Add proper rel=\"next\" and rel=\"prev\" pagination for category pages with many cashback offers. Helps search engines understand content relationship and index offers efficiently."⟩,
    ⟨3, "Optimize site for Core Web Vitals", false, "Frontend Developer", "Ensure LCP, FID, and CLS scores meet Google\x27s standards on both mobile and desktop. Page experience is particularly important for cashback sites where users compare multiple offers."⟩,
    ⟨4, "Implement price range schema", false, "Frontend Developer", "Add schema markup for cashback percentage ranges on category pages. Helps search engines understand offer values and can enhance rich snippets in search results."⟩,
    ⟨5, "Create dynamic sitemap for offers", false, "Backend Developer", "Implement dynamically generated sitemap that updates with new cashback offers and merchants. Ensures search engines can discover and index new offers quickly."⟩,
    ⟨6, "Fix merchant page duplicate content", false, "SEO Analyst", "Audit and fix duplicate content issues across similar merchant pages. Implement unique content templates and canonical tags to prevent dilution of ranking signals."⟩,
    ⟨7, "Optimize cashback tracking parameters", false, "Backend Developer", "Ensure affiliate tracking parameters don\x27t create duplicate content issues. Configure URL parameters in Google Search Console and implement proper canonicalization."⟩,
    ⟨8, "Implement Progressive Web App", false, "Frontend Developer", "Convert site to PWA to improve mobile experience and enable offline functionality. PWAs typically have better engagement metrics, which indirectly improve SEO performance."⟩
  ]),
  ("technical", [
    ⟨1, "Configure robots.txt", false, "Frontend Developer", "Tells search engines which pages to crawl and which to ignore. Improves crawl efficiency and prevents indexing of sensitive or duplicate content. Directly impacts which pages appear in search results."⟩,
    ⟨2, "Fix broken links", false, "Frontend Developer", "Prevents users from encountering 404 errors. Search engines penalize sites with broken links as they indicate poor maintenance. Improves user experience and preserves link equity throughout the site."⟩,
    ⟨3, "Implement SSL certificate", false, "Frontend Developer", "Enables HTTPS, which is a direct ranking factor. Secures data transmission and builds user trust. Google Chrome marks non-HTTPS sites as \"Not Secure,\" potentially increasing bounce rates."⟩,
    ⟨4, "Create XML sitemap", false, "Frontend Developer", "Provides search engines with a complete map of all pages on your site. Increases crawling efficiency and ensures important pages are discovered and indexed. Required for Google Search Console submission."⟩,
    ⟨5, "Minify CSS/JS files", false, "Frontend Developer", "Reduces file sizes by removing unnecessary characters. Improves page load speed, which is a direct ranking factor. Better speed improves user experience metrics like Time to First Byte (TTFB)."⟩,
    ⟨6, "Enable GZIP compression", false, "Frontend Developer", "Compresses web files before sending them to the browser. Can reduce transfer size by up to 70%, significantly improving load speeds. Better speed directly impacts Core Web Vitals metrics used for ranking."⟩,
    ⟨7, "Implement lazy loading", false, "Frontend Developer", "Defers loading of off-screen images until users scroll to them. Improves initial page load speed and Core Web Vitals metrics (LCP, CLS). Reduces bandwidth usage for users who don\x27t scroll the entire page."⟩,
    ⟨8, "Fix 404 pages", false, "Frontend Developer", "Creates custom 404 pages that guide users back to functioning content. Reduces bounce rates when users encounter broken links. Preserves user experience and prevents search engines from indexing error pages."⟩
  ]),
  ("content", [
    ⟨1, "Implement title tags", false, "Frontend Developer", "Primary ranking factor that tells search engines what the page is about. Appears as the clickable headline in search results. Properly optimized titles with primary keywords improve CTR and rankings."⟩,
    ⟨2, "Add meta descriptions", false, "Frontend Developer", "Provides a summary of page content in search results. While not a direct ranking factor, well-crafted descriptions with keywords improve click-through rates, which indirectly affects rankings."⟩,
    ⟨3, "Structure header tags", false, "Frontend Developer", "Creates a hierarchical structure for content (H1-H6). Helps search engines understand content organization and importance. H1 tags with target keywords significantly impact relevance for those keywords."⟩,
    ⟨4, "Optimize image alt attributes", false, "Frontend Developer", "Provides text alternatives for images that search engines can read. Improves accessibility and helps pages rank in image search. Descriptive alt text with relevant keywords improves content relevance signals."⟩,
    ⟨5, "Implement schema markup", false, "Frontend Developer", "Adds structured data that helps search engines understand content context. Enables rich snippets in search results (ratings, prices, etc.). Increases visibility and click-through rates with enhanced SERP listings."⟩,
    ⟨6, "Add canonical tags", false, "Frontend Developer", "Tells search engines which version of duplicate or similar pages is the primary one. Prevents duplicate content penalties by consolidating ranking signals to the canonical URL. Essential for sites with parameter-based URLs or pagination."⟩
  ]),
  ("internal", [
    ⟨1, "Create navigation structure", false, "Frontend Developer", "Provides clear pathways for users and search engines to find content. Improves crawlability and passes link equity to important pages. Well-structured navigation reduces bounce rates and improves user experience metrics."⟩,
    ⟨2, "Implement breadcrumbs", false, "Frontend Developer", "Shows users their location within the site hierarchy. Improves navigation and reduces bounce rates. Can appear as rich snippets in search results, improving click-through rates and conveying site structure to search engines."⟩,
    ⟨3, "Add descriptive anchor text", false, "Frontend Developer", "Uses relevant keywords in link text instead of generic phrases like \"click here.\" Helps search engines understand what the linked page is about. Descriptive anchor text is a significant ranking factor for the linked page."⟩,
    ⟨4, "Fix orphaned pages", false, "SEO Analyst", "Identifies and links to pages that have no internal links pointing to them. Improves crawlability and ensures all valuable content is discoverable. Prevents valuable content from being excluded from search indexes due to lack of internal links."⟩
  ]),
  ("local", [
    ⟨1, "Implement local business schema", false, "Frontend Developer", "Adds structured data specific to local businesses. Enables rich results with business information in search. Improves visibility in local searches and Google Maps with precise business details that search engines can understand."⟩,
    ⟨2, "Create store locator page", false, "Frontend Developer", "Provides users with an interactive way to find physical locations. Improves user experience for location-based searches. Pages with location data help businesses rank higher in local search results."⟩,
    ⟨3, "Add embedded Google Maps", false, "Frontend Developer", "Visually displays business location(s) for users. Improves user experience by providing interactive directions. Sends strong location signals to search engines, improving local search rankings and visibility in map results."⟩
  ]),
  ("analytics", [
    ⟨1, "Install Google Analytics", false, "Frontend Developer", "Tracks user behavior, traffic sources, and conversions. Provides data to make informed SEO decisions. Enables measurement of SEO campaign effectiveness and identification of high-performing content."⟩,
    ⟨2, "Set up Google Search Console", false, "SEO Analyst", "Monitors site\x27s presence in Google search results. Identifies issues affecting search performance. Provides data on keywords driving traffic, click-through rates, and index coverage problems that need to be addressed."⟩,
    ⟨3, "Configure event tracking", false, "Frontend Developer", "Tracks specific user interactions like downloads or form submissions. Measures engagement beyond pageviews. Data helps identify which content elements drive user engagement and conversions to inform SEO strategy."⟩,
    ⟨4, "Set up performance monitoring", false, "Frontend Developer", "Continuously tracks Core Web Vitals and other performance metrics. Alerts to issues affecting user experience and rankings. Essential for maintaining good performance scores that directly impact search rankings."⟩
  ]),
  ("ongoing", [
    ⟨1, "Create content update schedule", false, "SEO Analyst", "Establishes a regular cadence for refreshing existing content. Fresh content signals site activity to search engines. Regular updates improve relevance and can trigger ranking reconsiderations for previously published content."⟩,
    ⟨2, "Set up automated testing", false, "Frontend Developer", "Creates scripts to regularly check for SEO issues. Prevents regression when new features are deployed. Automated testing ensures consistent compliance with SEO best practices across all site updates."⟩,
    ⟨3, "Configure performance alerts", false, "Frontend Developer", "Sets up notifications for sudden drops in page speed or other metrics. Enables quick response to performance issues. Prevents long-term ranking impacts from undetected performance degradation."⟩
  ]),
  ("seo_analyst", [
    ⟨1, "Conduct keyword research", false, "SEO Analyst", "Identifies high-value search terms with optimal search volume and competition levels. Forms the foundation of all SEO efforts by determining target keywords. Directly impacts which terms the site can realistically rank for based on competition analysis."⟩,
    ⟨2, "Perform competitor analysis", false, "SEO Analyst", "Identifies top-ranking competitors and analyzes their content, backlink profiles, and keyword strategies. Reveals content gaps and keyword opportunities. Provides benchmarks for performance and reveals strategies working in your specific industry."⟩,
    ⟨3, "Develop content strategy", false, "SEO Analyst", "Creates a systematic plan for content creation based on keyword research and competitor analysis. Maps topics to user intent throughout the buying journey. Ensures all content serves a specific SEO purpose with measurable outcomes."⟩,
    ⟨4, "Define title tag specifications", false, "SEO Analyst", "Creates detailed title tag templates with exact character limits, keyword placement, and brand positioning. Ensures consistency across similar page types. Provides specific instructions for developers to implement optimal title structures."⟩,
    ⟨5, "Provide meta description formats", false, "SEO Analyst", "Develops meta description templates with optimal character counts, keyword inclusion, and compelling calls-to-action. Increases click-through rates from search results. Provides exact specifications for developers to implement."⟩,
    ⟨6, "Analyze search intent", false, "SEO Analyst", "Determines whether users searching specific keywords have informational, navigational, commercial, or transactional intent. Ensures content matches user expectations. Directly impacts bounce rates, engagement metrics, and conversion rates."⟩,
    ⟨7, "Identify backlink opportunities", false, "SEO Analyst", "Researches potential sources for quality backlinks such as industry directories, partner websites, and content placement opportunities. Improves domain authority. Builds the external link profile that directly impacts search rankings."⟩,
    ⟨8, "Monitor algorithm updates", false, "SEO Analyst", "Tracks and analyzes search engine algorithm changes and their potential impact on rankings. Enables quick adaptations to strategy when needed. Prevents ranking drops by staying aligned with evolving search engine requirements."⟩,
    ⟨9, "Analyze ranking positions", false, "SEO Analyst", "Tracks keyword ranking positions across search engines and identifies trends and opportunities. Measures effectiveness of SEO efforts over time. Provides data to justify continued investment in specific SEO initiatives."⟩,
    ⟨10, "Conduct content gap analysis", false, "SEO Analyst", "Identifies topics and keywords that competitors rank for but your site doesn\x27t address. Reveals untapped content opportunities with existing search demand. Provides direction for content creation that can quickly capture uncontested rankings."⟩,
    ⟨11, "Optimize for featured snippets", false, "SEO Analyst", "Structures content to specifically target featured snippet positions at the top of search results. Dramatically increases visibility and click-through rates. Requires specific content formatting that developers need to implement."⟩,
    ⟨12, "Create schema markup strategy", false, "SEO Analyst", "Determines which schema.org structured data types are most relevant for each page type. Enables rich snippets in search results. Provides exact specifications for developers to implement the appropriate JSON-LD markup."⟩
  ]),
  ("backlinks", [
    ⟨1, "Conduct backlink audit", false, "SEO Analyst", "Analyzes existing backlink profile to identify toxic links, opportunities for improvement, and current strengths. Helps avoid Google penalties. Establishes baseline metrics for future link building activities."⟩,
    ⟨2, "Create link building strategy", false, "SEO Analyst", "Develops a comprehensive plan for acquiring high-quality backlinks from relevant sources. Improves domain authority and search rankings. Sets priorities based on competitor analysis and keyword difficulty."⟩,
    ⟨3, "Develop guest posting plan", false, "SEO Analyst", "Identifies high-authority sites in your industry that accept guest posts and creates outreach templates. Builds relevant, high-quality backlinks. Establishes thought leadership and drives referral traffic."⟩,
    ⟨4, "Create shareable content assets", false, "SEO Analyst", "Develops content specifically designed to attract natural backlinks such as original research, infographics, or tools. Generates organic link acquisition. Creates resources industry websites want to reference and link to."⟩,
    ⟨5, "Submit to industry directories", false, "SEO Analyst", "Identifies and submits site to relevant, high-quality industry directories and association websites. Builds foundational backlinks from trusted sources. Improves local and industry-specific relevance signals."⟩,
    ⟨6, "Perform broken link building", false, "SEO Analyst", "Finds broken links on external sites and offers your content as a replacement. Leverages existing link opportunities. Provides immediate value to site owners while gaining valuable backlinks."⟩,
    ⟨7, "Monitor brand mentions", false, "SEO Analyst", "Tracks unlinked mentions of your brand across the web and reaches out to convert them to backlinks. Capitalizes on existing brand awareness. Turns already-existing mentions into valuable ranking signals."⟩,
    ⟨8, "Analyze competitor backlinks", false, "SEO Analyst", "Identifies sites linking to competitors but not to you and creates outreach strategies. Leverages proven link opportunities. Targets sites already interested in your industry or niche."⟩,
    ⟨9, "Disavow toxic backlinks", false, "SEO Analyst", "Identifies and disavows harmful backlinks that could trigger Google penalties. Protects site from negative SEO and algorithmic penalties. Maintains a clean backlink profile focused on quality rather than quantity."⟩,
    ⟨10, "Track backlink acquisition", false, "SEO Analyst", "Monitors new and lost backlinks and measures their impact on rankings and organic traffic. Quantifies link building effectiveness. Provides data to refine strategy and focus on most effective tactics."⟩
  ])
]

/-- The integration-status document seeded by `initializeRedisData`. -/
def defaultIntegrations : List (String × ConnInfo) :=
  [("googleSearchConsole", ⟨false, none⟩), ("googleAnalytics", ⟨false, none⟩),
   ("ahrefs", ⟨false, none⟩), ("semrush", ⟨false, none⟩),
   ("screaming_frog", ⟨false, none⟩)]

/-- `initializeRedisData()`: if the catalog key is absent, seeds all four
documents; every backend failure is caught and swallowed
(`catch ... console.error`), leaving whatever writes already happened. -/
def initializeRedisData (beh : Beh) (nowISO : String) (w : World) : World :=
  match redisExists beh RKey.tasks w with
  | (Except.error _, w1) => w1
  | (Except.ok tasksExist, w1) =>
    if tasksExist then w1 else
      match redisSetTasks beh getDefaultTasks w1 with
      | (Except.error _, w2) => w2
      | (Except.ok _, w2) =>
        match redisSetLog beh
            [LogItem.seeded ⟨1, nowISO, "SYSTEM_INIT",
              "SEO Dashboard initialized with default tasks", "System"⟩] w2 with
        | (Except.error _, w3) => w3
        | (Except.ok _, w3) =>
          match redisSetScore beh ⟨55, 40, 60, 45, 65, nowISO⟩ w3 with
          | (Except.error _, w4) => w4
          | (Except.ok _, w4) => (redisSetIntegrations beh defaultIntegrations w4).2

/-- `getTasks()`: seed-if-needed, then read the catalog; a failed or null
read falls back to the static default catalog (`tasks || getDefaultTasks()`
under a `catch`). -/
def getTasks (beh : Beh) (nowISO : String) (w : World) : TasksState × World :=
  let w1 := initializeRedisData beh nowISO w
  match redisGetTasks beh w1 with
  | (Except.error _, w2) => (getDefaultTasks, w2)
  | (Except.ok tasks, w2) => (tasks.getD getDefaultTasks, w2)

/-- `getActivityLog()`: seed-if-needed, then read the log; a failed or
null read yields `[]` (`log || []` under a `catch`). -/
def getActivityLog (beh : Beh) (nowISO : String) (w : World) : List LogItem × World :=
  let w1 := initializeRedisData beh nowISO w
  match redisGetLog beh w1 with
  | (Except.error _, w2) => ([], w2)
  | (Except.ok log, w2) => (log.getD [], w2)

/-- `addActivityLog(action, description)`: reads the current log, prepends
the new entry, truncates with `log.slice(0, 19)` and writes the array
back; every failure is caught and swallowed. -/
def addActivityLog (beh : Beh) (nowISO : String) (now : Nat)
    (action description : String) (w : World) : World :=
  let r := getActivityLog beh nowISO w
  let newEntry : ActivityLogEntry := ⟨action, description, now⟩
  (redisSetLog beh (LogItem.entry newEntry :: r.1.take 19) r.2).2

/-- `toggleTaskCompletion(category, taskId)`: full-document
read-modify-write.  The task is located with
`tasks[category]?.find(t => t.id === taskId)`; a miss or a failed catalog
write surfaces as the generic error `'Failed to update task status'`
rethrown by the `catch`; on success one activity-log entry is appended
describing the transition. -/
def toggleTaskCompletion (beh : Beh) (nowISO : String) (now : Nat)
    (category : String) (taskId : Nat) (w : World) : Except String TasksState × World :=
  let r := getTasks beh nowISO w
  let tasks := r.1
  match (lookupCat tasks category).bind
      (fun cat => cat.find? (fun t => t.id == taskId)) with
  | none => (Except.error "Failed to update task status", r.2)
  | some task =>
    let updatedTasks := setCat tasks category
      (((lookupCat tasks category).map (fun cat => cat.map (fun t =>
          if t.id == taskId then { t with completed := !t.completed } else t))).getD [])
    match redisSetTasks beh updatedTasks r.2 with
    | (Except.error _, w2) => (Except.error "Failed to update task status", w2)
    | (Except.ok _, w2) =>
      let newStatus := !task.completed
      let w3 := addActivityLog beh nowISO now
        (if newStatus then "TASK_COMPLETED" else "TASK_REOPENED")
        ((if newStatus then "Completed" else "Reopened")
          ++ " task: " ++ task.name ++ " in " ++ category) w2
      (Except.ok updatedTasks, w3)

/-- The per-category update performed by a toggle: flip `completed` on
every task whose `id` matches. -/
def toggleList (taskId : Nat) (cat : List Task) : List Task :=
  cat.map (fun t => if t.id == taskId then { t with completed := !t.completed } else t)

/-- When the catalog key is present and the `exists` call succeeds,
`initializeRedisData` seeds nothing: only the clock advances. -/
theorem initializeRedisData_present (beh : Beh) (iso : String) (w : World)
    (h : w.store.tasks.isSome = true) (h0 : beh w.clock = false) :
    initializeRedisData beh iso w = tick w := by
  unfold initializeRedisData redisExists
  simp [h0, h]

/-- When the catalog key is present and the backend is healthy for two
calls, `getTasks` returns the stored document and changes no document. -/
theorem getTasks_present (beh : Beh) (iso : String) (w : World) (ts : TasksState)
    (hts : w.store.tasks = some ts)
    (h0 : beh w.clock = false) (h1 : beh (w.clock + 1) = false) :
    getTasks beh iso w = (ts, ⟨w.store, w.clock + 2⟩) := by
  unfold getTasks
  rw [initializeRedisData_present beh iso w (by rw [hts]; rfl) h0]
  unfold redisGetTasks
  simp [tick, h1, hts]

/-- When the catalog key is present and the backend is healthy for two
calls, `getActivityLog` returns the stored log (or `[]`) verbatim. -/
theorem getActivityLog_present (beh : Beh) (iso : String) (w : World)
    (h : w.store.tasks.isSome = true)
    (h0 : beh w.clock = false) (h1 : beh (w.clock + 1) = false) :
    getActivityLog beh iso w = (w.store.activityLog.getD [], ⟨w.store, w.clock + 2⟩) := by
  unfold getActivityLog
  rw [initializeRedisData_present beh iso w h h0]
  unfold redisGetLog
  simp [tick, h1]

/-- When the catalog key is present and the backend is healthy for three
calls, `addActivityLog` replaces the stored log with the new entry
prepended to the first 19 old entries. -/
theorem addActivityLog_present (beh : Beh) (iso : String) (now : Nat)
    (a d : String) (w : World)
    (h : w.store.tasks.isSome = true)
    (h0 : beh w.clock = false) (h1 : beh (w.clock + 1) = false)
    (h2 : beh (w.clock + 2) = false) :
    addActivityLog beh iso now a d w =
      ⟨{ w.store with
          activityLog := some (LogItem.entry ⟨a, d, now⟩ ::
            (w.store.activityLog.getD []).take 19) },
        w.clock + 3⟩ := by
  unfold addActivityLog
  rw [getActivityLog_present beh iso w h h0 h1]
  unfold redisSetLog
  simp [tick, h2]

/-- When the catalog key is present, the first two backend calls succeed
and the log write fails, `addActivityLog` swallows the error and leaves
the store untouched. -/
theorem addActivityLog_setFails (beh : Beh) (iso : String) (now : Nat)
    (a d : String) (w : World)
    (h : w.store.tasks.isSome = true)
    (h0 : beh w.clock = false) (h1 : beh (w.clock + 1) = false)
    (h2 : beh (w.clock + 2) = true) :
    addActivityLog beh iso now a d w = ⟨w.store, w.clock + 3⟩ := by
  unfold addActivityLog
  rw [getActivityLog_present beh iso w h h0 h1]
  unfold redisSetLog
  simp [tick, h2]

/-- Successful toggle, backend healthy for all six calls: the catalog is
rewritten with the one category's list mapped through the flip, and one
log entry describing the transition is prepended to the stored log. -/
theorem toggleTaskCompletion_found (beh : Beh) (iso : String) (now : Nat)
    (c : String) (tid : Nat) (w : World) (ts : TasksState) (cat : List Task) (task : Task)
    (hts : w.store.tasks = some ts)
    (hlook : lookupCat ts c = some cat)
    (hfind : cat.find? (fun t => t.id == tid) = some task)
    (h0 : beh w.clock = false) (h1 : beh (w.clock + 1) = false)
    (h2 : beh (w.clock + 2) = false) (h3 : beh (w.clock + 3) = false)
    (h4 : beh (w.clock + 4) = false) (h5 : beh (w.clock + 5) = false) :
    toggleTaskCompletion beh iso now c tid w =
      (Except.ok (setCat ts c (toggleList tid cat)),
        ⟨{ w.store with
            tasks := some (setCat ts c (toggleList tid cat)),
            activityLog := some (LogItem.entry
              ⟨(if !task.completed then "TASK_COMPLETED" else "TASK_REOPENED"),
               ((if !task.completed then "Completed" else "Reopened")
                 ++ " task: " ++ task.name ++ " in " ++ c), now⟩ ::
              (w.store.activityLog.getD []).take 19) },
          w.clock + 6⟩) := by
  unfold toggleTaskCompletion
  rw [getTasks_present beh iso w ts hts h0 h1]
  simp only [hlook, hfind, Option.some_bind, Option.map_some', Option.getD_some]
  have h2' : beh ((⟨w.store, w.clock + 2⟩ : World).clock) = false := h2
  have hset : redisSetTasks beh (setCat ts c (cat.map (fun t =>
        if t.id == tid then { t with completed := !t.completed } else t)))
        ⟨w.store, w.clock + 2⟩
      = (Except.ok (), ⟨{ w.store with
          tasks := some (setCat ts c (cat.map (fun t =>
            if t.id == tid then { t with completed := !t.completed } else t))) },
          w.clock + 3⟩) := by
    unfold redisSetTasks
    rw [if_neg (by rw [h2']; exact Bool.false_ne_true)]
    rfl
  rw [hset]
  dsimp only
  rw [addActivityLog_present beh iso now _ _ _ (by rfl) h3 h4 h5]
  rfl

/-- C4: when the `(category, taskId)` pair does not resolve to an existing
task, `toggleTaskCompletion` fails with the generic error and writes
nothing: the final store (catalog and activity log alike) equals the
initial store, so a subsequent `getTasks` read observes no change. -/
theorem C4_toggle_not_found (iso : String) (now : Nat) (c : String) (tid : Nat)
    (w : World) (ts : TasksState)
    (hts : w.store.tasks = some ts)
    (hmiss : (lookupCat ts c).bind (fun cat => cat.find? (fun t => t.id == tid)) = none) :
    (toggleTaskCompletion behNone iso now c tid w).1
        = Except.error "Failed to update task status"
  ∧ (toggleTaskCompletion behNone iso now c tid w).2.store = w.store := by
  unfold toggleTaskCompletion
  rw [getTasks_present behNone iso w ts hts rfl rfl]
  simp [hmiss]

/-- A world holding exactly the default catalog and no other document. -/
def wDefault : World := ⟨⟨some getDefaultTasks, none, none, none⟩, 0⟩

theorem C4_witness :
    (toggleTaskCompletion behNone "T" 7 "nope" 1 wDefault).1
        = Except.error "Failed to update task status"
  ∧ (toggleTaskCompletion behNone "T" 7 "nope" 1 wDefault).2.store = wDefault.store :=
  C4_toggle_not_found "T" 7 "nope" 1 wDefault getDefaultTasks rfl rfl

/-- C5: `addActivityLog` prepends the new entry and truncates with
`slice(0, 19)`, so the stored log never exceeds 20 entries; appending to
a 20-entry log keeps the 19 newest old entries (dropping exactly the
oldest, i.e. the last in most-recent-first order). -/
theorem C5_log_capped (iso : String) (now : Nat) (a d : String) (w : World)
    (hts : w.store.tasks.isSome = true) :
    (addActivityLog behNone iso now a d w).store.activityLog
        = some (LogItem.entry ⟨a, d, now⟩ :: (w.store.activityLog.getD []).take 19)
  ∧ (∀ l, (addActivityLog behNone iso now a d w).store.activityLog = some l →
      l.length ≤ 20)
  ∧ ((w.store.activityLog.getD []).length = 20 →
      (addActivityLog behNone iso now a d w).store.activityLog
        = some (LogItem.entry ⟨a, d, now⟩ :: (w.store.activityLog.getD []).dropLast)) := by
  have h := addActivityLog_present behNone iso now a d w hts rfl rfl rfl
  refine ⟨by rw [h], ?_, ?_⟩
  · intro l hl
    rw [h] at hl
    simp only [Option.some.injEq] at hl
    rw [← hl]
    simp only [List.length_cons, List.length_take]
    omega
  · intro h20
    rw [h, List.dropLast_eq_take, h20]

/-- A stored activity log already holding 20 entries. -/
def l20 : List LogItem := (List.range 20).map (fun i => LogItem.entry ⟨"t", "m", i⟩)

/-- A world with a present catalog and the full 20-entry log. -/
def w20 : World := ⟨⟨some [], some l20, none, none⟩, 0⟩

theorem C5_witness :
    (addActivityLog behNone "T" 99 "a" "d" w20).store.activityLog
      = some (LogItem.entry ⟨"a", "d", 99⟩ :: l20.dropLast) := by
  have h := (C5_log_capped "T" 99 "a" "d" w20 rfl).2.2 (by decide)
  rw [h]
  rfl

/-- C6: every successful toggle appends exactly one activity-log entry,
of type `TASK_COMPLETED` when the task's new `completed` value is `true`
and `TASK_REOPENED` when it is `false`, with message
`"Completed task: <name> in <category>"` resp.
`"Reopened task: <name> in <category>"`. -/
theorem C6_toggle_log_entry (iso : String) (now : Nat) (c : String) (tid : Nat)
    (w : World) (ts : TasksState) (cat : List Task) (task : Task)
    (hts : w.store.tasks = some ts)
    (hlook : lookupCat ts c = some cat)
    (hfind : cat.find? (fun t => t.id == tid) = some task) :
    (toggleTaskCompletion behNone iso now c tid w).2.store.activityLog =
      some (LogItem.entry
        ⟨(if !task.completed then "TASK_COMPLETED" else "TASK_REOPENED"),
         ((if !task.completed then "Completed" else "Reopened")
           ++ " task: " ++ task.name ++ " in " ++ c), now⟩ ::
        (w.store.activityLog.getD []).take 19) := by
  rw [toggleTaskCompletion_found behNone iso now c tid w ts cat task hts hlook hfind
    rfl rfl rfl rfl rfl rfl]

theorem C6_witness :
    (toggleTaskCompletion behNone "T" 42 "technical" 1 wDefault).2.store.activityLog =
      some [LogItem.entry ⟨"TASK_COMPLETED",
        "Completed task: Configure robots.txt in technical", 42⟩] := by
  rw [C6_toggle_log_entry "T" 42 "technical" 1 wDefault getDefaultTasks
    ((lookupCat getDefaultTasks "technical").getD [])
    ⟨1, "Configure robots.txt", false, "Frontend Developer",
      "Tells search engines which pages to crawl and which to ignore. Improves crawl efficiency and prevents indexing of sensitive or duplicate content. Directly impacts which pages appear in search results."⟩
    rfl rfl rfl]
  rfl

/-- On an absent catalog key with a healthy backend,
`initializeRedisData` seeds all four documents. -/
theorem initializeRedisData_absent (iso : String) (w : World)
    (habs : w.store.tasks = none) :
    initializeRedisData behNone iso w =
      ⟨⟨some getDefaultTasks,
        some [LogItem.seeded ⟨1, iso, "SYSTEM_INIT",
          "SEO Dashboard initialized with default tasks", "System"⟩],
        some ⟨55, 40, 60, 45, 65, iso⟩,
        some defaultIntegrations⟩,
        w.clock + 5⟩ := by
  unfold initializeRedisData redisExists redisSetTasks redisSetLog redisSetScore
    redisSetIntegrations
  simp [behNone, tick, habs]

/-- C7: when the catalog key is absent, the first `getTasks` call seeds
storage with exactly the static default catalog (a subsequent `exists`
check answers `true`) and returns exactly that catalog. -/
theorem C7_seed_on_first_read (iso : String) (w : World)
    (habs : w.store.tasks = none) :
    (getTasks behNone iso w).1 = getDefaultTasks
  ∧ (getTasks behNone iso w).2.store.tasks = some getDefaultTasks
  ∧ (redisExists behNone RKey.tasks (getTasks behNone iso w).2).1 = Except.ok true := by
  unfold getTasks
  rw [initializeRedisData_absent iso w habs]
  exact ⟨rfl, rfl, rfl⟩

/-- A world whose store holds no document at all. -/
def wEmpty : World := ⟨⟨none, none, none, none⟩, 0⟩

theorem C7_witness :
    (getTasks behNone "T" wEmpty).1 = getDefaultTasks
  ∧ (getTasks behNone "T" wEmpty).2.store.tasks = some getDefaultTasks
  ∧ (redisExists behNone RKey.tasks (getTasks behNone "T" wEmpty).2).1
      = Except.ok true :=
  C7_seed_on_first_read "T" wEmpty rfl

/-- Flipping the same task id twice restores the category list. -/
theorem toggleList_toggleList (tid : Nat) (cat : List Task) :
    toggleList tid (toggleList tid cat) = cat := by
  unfold toggleList
  induction cat with
  | nil => rfl
  | cons t rest ih =>
    simp only [List.map_cons]
    rw [ih]
    by_cases hp : (t.id == tid) = true
    · simp [hp]
    · simp [hp]

/-- A category that resolves satisfies the `any` guard of `setCat`. -/
theorem any_key_of_lookup (ts : TasksState) (c : String) (cat : List Task)
    (h : lookupCat ts c = some cat) : ts.any (fun p => p.1 == c) = true := by
  unfold lookupCat at h
  rcases Option.map_eq_some'.mp h with ⟨pr, hf, _⟩
  have hpr := List.find?_some hf
  exact List.any_eq_true.mpr ⟨pr, List.mem_of_find?_eq_some hf, hpr⟩

/-- Updating the keys of an association list leaves each key in place. -/
theorem lookup_map_update (c : String) (l : List Task) :
    ∀ ts : TasksState, ∀ cat, lookupCat ts c = some cat →
      lookupCat (ts.map (fun p => if p.1 == c then (p.1, l) else p)) c = some l := by
  intro ts
  induction ts with
  | nil => intro cat h; simp [lookupCat] at h
  | cons p rest ih =>
    intro cat h
    unfold lookupCat at h ⊢
    rw [List.find?_cons] at h
    cases hp : (p.1 == c) with
    | true =>
      rw [List.map_cons, if_pos hp, List.find?_cons]
      simp [hp]
    | false =>
      rw [List.map_cons, if_neg (by rw [hp]; exact Bool.false_ne_true),
        List.find?_cons]
      simp only [hp] at h ⊢
      exact ih cat h

/-- Elements whose key differs from `c` are untouched by the update map. -/
theorem map_update_of_not_mem (c : String) (l : List Task) :
    ∀ ts : TasksState, (∀ q ∈ ts, (q.1 == c) = false) →
      ts.map (fun p => if p.1 == c then (p.1, l) else p) = ts := by
  intro ts
  induction ts with
  | nil => intro _; rfl
  | cons q rest ih =>
    intro hq
    rw [List.map_cons, if_neg (by rw [hq q (List.mem_cons_self q rest)]; exact
      Bool.false_ne_true), ih (fun r hr => hq r (List.mem_cons_of_mem q hr))]

/-- Writing back the looked-up value through the update map is the
identity on a document with distinct keys (as every JavaScript object
has). -/
theorem map_update_self (c : String) :
    ∀ ts : TasksState, ∀ cat, (ts.map Prod.fst).Nodup → lookupCat ts c = some cat →
      ts.map (fun p => if p.1 == c then (p.1, cat) else p) = ts := by
  intro ts
  induction ts with
  | nil => intro cat _ h; simp [lookupCat] at h
  | cons p rest ih =>
    intro cat hnd h
    rw [List.map_cons, List.nodup_cons] at hnd
    unfold lookupCat at h
    rw [List.find?_cons] at h
    cases hp : (p.1 == c) with
    | true =>
      have hc : p.1 = c := eq_of_beq hp
      have hcat : p.2 = cat := by
        simp only [hp] at h
        simpa using h
      subst hcat
      rw [List.map_cons, if_pos hp]
      have hrest : ∀ q ∈ rest, (q.1 == c) = false := by
        intro q hq
        apply beq_eq_false_iff_ne.mpr
        intro hqc
        apply hnd.1
        rw [hc, ← hqc]
        exact List.mem_map_of_mem Prod.fst hq
      rw [map_update_of_not_mem c p.2 rest hrest]
    | false =>
      rw [List.map_cons, if_neg (by rw [hp]; exact Bool.false_ne_true)]
      simp only [hp] at h
      rw [ih cat hnd.2 h]

/-- `setCat` with the value already stored is the identity (distinct
keys). -/
theorem setCat_lookup_self (ts : TasksState) (c : String) (cat : List Task)
    (hnd : (ts.map Prod.fst).Nodup) (h : lookupCat ts c = some cat) :
    setCat ts c cat = ts := by
  unfold setCat
  rw [if_pos (any_key_of_lookup ts c cat h), map_update_self c ts cat hnd h]

/-- A category present before `setCat` is found afterwards, holding the
new list. -/
theorem lookupCat_setCat (ts : TasksState) (c : String) (l cat : List Task)
    (h : lookupCat ts c = some cat) :
    lookupCat (setCat ts c l) c = some l := by
  unfold setCat
  rw [if_pos (any_key_of_lookup ts c cat h)]
  exact lookup_map_update c l ts cat h

/-- Two successive `setCat`s on the same present category collapse to the
second one. -/
theorem setCat_setCat (ts : TasksState) (c : String) (l l' cat : List Task)
    (h : lookupCat ts c = some cat) :
    setCat (setCat ts c l) c l' = setCat ts c l' := by
  have hany : ts.any (fun p => p.1 == c) = true := any_key_of_lookup ts c cat h
  unfold setCat
  rw [if_pos hany]
  have hcomp : ((fun p : String × List Task => p.1 == c)
      ∘ (fun p : String × List Task => if p.1 == c then (p.1, l) else p))
      = fun p : String × List Task => p.1 == c := by
    funext p
    by_cases hp : (p.1 == c) = true
    · have hc : p.1 = c := eq_of_beq hp
      simp [hp, hc]
    · have hc : ¬p.1 = c := by simpa using hp
      simp [hp, hc]
  have hany2 : (ts.map (fun p => if p.1 == c then (p.1, l) else p)).any
      (fun p => p.1 == c) = true := by
    rw [List.any_map, hcomp, hany]
  rw [if_pos hany2, if_pos hany, List.map_map]
  congr 1
  funext p
  by_cases hp : (p.1 == c) = true
  · simp [Function.comp, hp]
  · simp [Function.comp, hp]

/-- Toggling preserves task ids, so the toggled task is still found,
with its `completed` flag flipped. -/
theorem find?_toggleList (tid : Nat) :
    ∀ cat : List Task, ∀ task, cat.find? (fun t => t.id == tid) = some task →
      (toggleList tid cat).find? (fun t => t.id == tid)
        = some { task with completed := !task.completed } := by
  intro cat
  unfold toggleList
  induction cat with
  | nil => intro task h; simp at h
  | cons t rest ih =>
    intro task h
    rw [List.find?_cons] at h
    cases hp : (t.id == tid) with
    | true =>
      simp only [hp] at h
      have ht : t = task := by simpa using h
      subst ht
      rw [List.map_cons, if_pos hp, List.find?_cons]
      simp [hp]
    | false =>
      simp only [hp] at h
      rw [List.map_cons, if_neg (by rw [hp]; exact Bool.false_ne_true),
        List.find?_cons]
      simp only [hp]
      exact ih task h

/-- C3: toggling the same `(category, taskId)` twice on a stored catalog
document (distinct category keys, as in any JavaScript object) returns
the task's `completed` flag to its original value and leaves the stored
catalog structurally equal to the original document, while each of the
two calls still appends one new activity-log entry. -/
theorem C3_toggle_twice (iso1 iso2 : String) (now1 now2 : Nat) (c : String)
    (tid : Nat) (w : World) (ts : TasksState) (cat : List Task) (task : Task)
    (hnd : (ts.map Prod.fst).Nodup)
    (hts : w.store.tasks = some ts)
    (hlook : lookupCat ts c = some cat)
    (hfind : cat.find? (fun t => t.id == tid) = some task) :
    (toggleTaskCompletion behNone iso2 now2 c tid
        (toggleTaskCompletion behNone iso1 now1 c tid w).2).1 = Except.ok ts
  ∧ (toggleTaskCompletion behNone iso2 now2 c tid
        (toggleTaskCompletion behNone iso1 now1 c tid w).2).2.store.tasks = some ts
  ∧ (∃ e1, (toggleTaskCompletion behNone iso1 now1 c tid w).2.store.activityLog
      = some (LogItem.entry e1 :: (w.store.activityLog.getD []).take 19))
  ∧ (∃ e2, (toggleTaskCompletion behNone iso2 now2 c tid
        (toggleTaskCompletion behNone iso1 now1 c tid w).2).2.store.activityLog
      = some (LogItem.entry e2 ::
          ((toggleTaskCompletion behNone iso1 now1 c tid
            w).2.store.activityLog.getD []).take 19)) := by
  have h1 := toggleTaskCompletion_found behNone iso1 now1 c tid w ts cat task
    hts hlook hfind rfl rfl rfl rfl rfl rfl
  have hts1 : (toggleTaskCompletion behNone iso1 now1 c tid w).2.store.tasks
      = some (setCat ts c (toggleList tid cat)) := by rw [h1]
  have hlook1 : lookupCat (setCat ts c (toggleList tid cat)) c
      = some (toggleList tid cat) := lookupCat_setCat ts c _ cat hlook
  have hfind1 := find?_toggleList tid cat task hfind
  have h2 := toggleTaskCompletion_found behNone iso2 now2 c tid
    (toggleTaskCompletion behNone iso1 now1 c tid w).2
    (setCat ts c (toggleList tid cat)) (toggleList tid cat)
    { task with completed := !task.completed }
    hts1 hlook1 hfind1 rfl rfl rfl rfl rfl rfl
  have hdoc : setCat (setCat ts c (toggleList tid cat)) c
      (toggleList tid (toggleList tid cat)) = ts := by
    rw [toggleList_toggleList, setCat_setCat ts c (toggleList tid cat) cat cat hlook,
      setCat_lookup_self ts c cat hnd hlook]
  refine ⟨?_, ?_, ?_, ?_⟩
  · simp only [h2]
    rw [hdoc]
  · simp only [h2]
    rw [hdoc]
  · simp only [h1]
    exact ⟨_, rfl⟩
  · simp only [h2]
    exact ⟨_, rfl⟩

/-- A small two-category catalog document. -/
def exDoc3 : TasksState :=
  [("a", [⟨1, "t1", false, "r", "d"⟩, ⟨2, "t2", true, "r", "d"⟩]),
   ("b", [⟨1, "x", false, "r", "d"⟩])]

/-- A world storing `exDoc3` as the catalog. -/
def wC3 : World := ⟨⟨some exDoc3, none, none, none⟩, 0⟩

theorem C3_witness :
    (toggleTaskCompletion behNone "B" 2 "a" 1
        (toggleTaskCompletion behNone "A" 1 "a" 1 wC3).2).1 = Except.ok exDoc3
  ∧ (toggleTaskCompletion behNone "B" 2 "a" 1
        (toggleTaskCompletion behNone "A" 1 "a" 1 wC3).2).2.store.tasks
      = some exDoc3 := by
  have h := C3_toggle_twice "A" "B" 1 2 "a" 1 wC3 exDoc3
    [⟨1, "t1", false, "r", "d"⟩, ⟨2, "t2", true, "r", "d"⟩]
    ⟨1, "t1", false, "r", "d"⟩ (by decide) rfl rfl rfl
  exact ⟨h.1, h.2.1⟩

/-- C8 counterexample: on a wholly fresh store (log key absent, nothing
seeded), `getActivityLog` does NOT return the empty sequence — the read
itself triggers seeding, which writes a single `SYSTEM_INIT` record into
the log, and that one-entry log is returned. -/
theorem C8_counterexample :
    (getActivityLog behNone "T0" wEmpty).1
        = [LogItem.seeded ⟨1, "T0", "SYSTEM_INIT",
            "SEO Dashboard initialized with default tasks", "System"⟩]
  ∧ (getActivityLog behNone "T0" wEmpty).1 ≠ [] := by
  have h : (getActivityLog behNone "T0" wEmpty).1
      = [LogItem.seeded ⟨1, "T0", "SYSTEM_INIT",
          "SEO Dashboard initialized with default tasks", "System"⟩] := by
    unfold getActivityLog
    rw [initializeRedisData_absent "T0" wEmpty rfl]
    rfl
  refine ⟨h, ?_⟩
  rw [h]
  exact List.cons_ne_nil _ _

/-- C8 amended: when the activity-log key is absent, a read returns the
empty sequence provided the catalog key is present (so no seeding runs);
on a wholly fresh store the read seeds the documents and returns the
single seeded `SYSTEM_INIT` entry instead. -/
theorem C8_read_uninitialized (iso : String) (w : World)
    (habs : w.store.activityLog = none) :
    (w.store.tasks.isSome = true → (getActivityLog behNone iso w).1 = [])
  ∧ (w.store.tasks = none → (getActivityLog behNone iso w).1
      = [LogItem.seeded ⟨1, iso, "SYSTEM_INIT",
          "SEO Dashboard initialized with default tasks", "System"⟩]) := by
  constructor
  · intro hts
    unfold getActivityLog
    rw [initializeRedisData_present behNone iso w hts rfl]
    unfold redisGetLog
    simp [behNone, tick, habs]
  · intro hts
    unfold getActivityLog
    rw [initializeRedisData_absent iso w hts]
    rfl

/-- A world with a stored catalog but no activity-log document. -/
def wTasksOnly : World := ⟨⟨some [], none, none, none⟩, 0⟩

theorem C8_witness :
    (getActivityLog behNone "T" wTasksOnly).1 = []
  ∧ (getActivityLog behNone "T0" wEmpty).1
      = [LogItem.seeded ⟨1, "T0", "SYSTEM_INIT",
          "SEO Dashboard initialized with default tasks", "System"⟩] :=
  ⟨(C8_read_uninitialized "T" wTasksOnly rfl).1 rfl,
   (C8_read_uninitialized "T0" wEmpty rfl).2 rfl⟩

/-- Failure behaviour that fails exactly the first backend call (the
`exists` check inside `initializeRedisData`). -/
def behFail0 : Beh := fun n => n == 0

/-- A world storing an empty catalog object, different from the default
catalog. -/
def wStored : World := ⟨⟨some [], none, none, none⟩, 0⟩

/-- C9 counterexample: with a stored (non-default) catalog and a backend
whose `exists` call raises, `getTasks` returns the stored document, not
the static default catalog — the claimed universal fallback-to-default
fails when the failing call is not the catalog `get` itself. -/
theorem C9_counterexample :
    (getTasks behFail0 "T" wStored).1 = ([] : TasksState)
  ∧ (getTasks behFail0 "T" wStored).1 ≠ getDefaultTasks := by
  have h : (getTasks behFail0 "T" wStored).1 = ([] : TasksState) := by rfl
  refine ⟨h, ?_⟩
  rw [h]
  decide

/-- C9 amended: `getTasks` never propagates a backend failure (it is
total); it returns either the static default catalog or exactly the
catalog stored after the seeding step, and whenever the catalog `get`
call itself fails it returns the static default catalog. -/
theorem C9_fail_open_read (beh : Beh) (iso : String) (w : World) :
    ((getTasks beh iso w).1 = getDefaultTasks
      ∨ some (getTasks beh iso w).1 = (initializeRedisData beh iso w).store.tasks)
  ∧ (beh (initializeRedisData beh iso w).clock = true →
      (getTasks beh iso w).1 = getDefaultTasks) := by
  unfold getTasks redisGetTasks
  cases hb : beh (initializeRedisData beh iso w).clock with
  | true => simp [hb]
  | false =>
    simp only [hb]
    cases hstore : (initializeRedisData beh iso w).store.tasks with
    | none => simp [hstore]
    | some ts => simp [hstore]

/-- Failure behaviour that fails exactly the second backend call (the
catalog `get` inside `getTasks`). -/
def behFail1 : Beh := fun n => n == 1

theorem C9_witness :
    (getTasks behFail1 "T" wStored).1 = getDefaultTasks :=
  (C9_fail_open_read behFail1 "T" wStored).2 (by decide)

/-- C10: if the catalog write inside `toggleTaskCompletion` succeeds but
the subsequent activity-log append fails at the storage layer, the toggle
still succeeds: it returns the updated catalog, the catalog mutation is
persisted, and no log entry is persisted (`addActivityLog` catches and
swallows every error internally). -/
theorem C10_log_failure_swallowed (beh : Beh) (iso : String) (now : Nat)
    (c : String) (tid : Nat) (w : World) (ts : TasksState) (cat : List Task)
    (task : Task)
    (hts : w.store.tasks = some ts)
    (hlook : lookupCat ts c = some cat)
    (hfind : cat.find? (fun t => t.id == tid) = some task)
    (h0 : beh w.clock = false) (h1 : beh (w.clock + 1) = false)
    (h2 : beh (w.clock + 2) = false) (h3 : beh (w.clock + 3) = false)
    (h4 : beh (w.clock + 4) = false) (h5 : beh (w.clock + 5) = true) :
    (toggleTaskCompletion beh iso now c tid w).1
        = Except.ok (setCat ts c (toggleList tid cat))
  ∧ (toggleTaskCompletion beh iso now c tid w).2.store.tasks
        = some (setCat ts c (toggleList tid cat))
  ∧ (toggleTaskCompletion beh iso now c tid w).2.store.activityLog
        = w.store.activityLog := by
  unfold toggleTaskCompletion
  rw [getTasks_present beh iso w ts hts h0 h1]
  simp only [hlook, hfind, Option.some_bind, Option.map_some', Option.getD_some]
  have h2' : beh ((⟨w.store, w.clock + 2⟩ : World).clock) = false := h2
  have hset : redisSetTasks beh (setCat ts c (cat.map (fun t =>
        if t.id == tid then { t with completed := !t.completed } else t)))
        ⟨w.store, w.clock + 2⟩
      = (Except.ok (), ⟨{ w.store with
          tasks := some (setCat ts c (cat.map (fun t =>
            if t.id == tid then { t with completed := !t.completed } else t))) },
          w.clock + 3⟩) := by
    unfold redisSetTasks
    rw [if_neg (by rw [h2']; exact Bool.false_ne_true)]
    rfl
  rw [hset]
  dsimp only
  rw [addActivityLog_setFails beh iso now _ _ _ (by rfl) h3 h4 h5]
  exact ⟨rfl, rfl, rfl⟩

/-- Failure behaviour that fails exactly the sixth backend call (the log
write inside `addActivityLog`, in a successful toggle run starting at
clock 0). -/
def behFail5 : Beh := fun n => n == 5

theorem C10_witness :
    (toggleTaskCompletion behFail5 "T" 9 "a" 1 wC3).1
        = Except.ok (setCat exDoc3 "a" (toggleList 1
            [⟨1, "t1", false, "r", "d"⟩, ⟨2, "t2", true, "r", "d"⟩]))
  ∧ (toggleTaskCompletion behFail5 "T" 9 "a" 1 wC3).2.store.tasks
        = some (setCat exDoc3 "a" (toggleList 1
            [⟨1, "t1", false, "r", "d"⟩, ⟨2, "t2", true, "r", "d"⟩]))
  ∧ (toggleTaskCompletion behFail5 "T" 9 "a" 1 wC3).2.store.activityLog
        = wC3.store.activityLog :=
  C10_log_failure_swallowed behFail5 "T" 9 "a" 1 wC3 exDoc3
    [⟨1, "t1", false, "r", "d"⟩, ⟨2, "t2", true, "r", "d"⟩]
    ⟨1, "t1", false, "r", "d"⟩
    rfl rfl rfl rfl rfl rfl rfl rfl rfl

end SeoActions
